import Mathlib

/-!
Verification of the adeptRL peer-to-peer training coordination layer.

Shallow embedding of:
- `adept/scripts/p2p.py` — `main`: run-identity bootstrap (timestamp mint,
  broadcast, barrier), per-rank seed derivation, and the initial parameter
  synchronization loop over `network.parameters()`;
- `adept/network/base/base.py` — `BaseNetwork.sync`: one asynchronous
  broadcast per `state_dict()` entry, waited on unless `async_op` is set.

Buffers are modelled as lists of integer words (bit patterns at native
precision); MPI/torch.distributed broadcasts are modelled by their defining
property: every non-root peer's buffer contents are overwritten in place by
the root's contents, while shape and dtype metadata stay local.
-/

/-- A numeric buffer (tensor): shape and dtype metadata plus flat contents.
Contents are integer words standing for the raw bytes at native precision. -/
structure Tensor where
  shape : List Nat
  dtype : Nat
  data : List Int
deriving Repr, DecidableEq

instance : Inhabited Tensor := ⟨⟨[], 0, []⟩⟩

/-- The buffer identity visible on the wire: shape and dtype metadata. -/
structure BufferMeta where
  shape : List Nat
  dtype : Nat
deriving Repr, DecidableEq

def Tensor.meta (t : Tensor) : BufferMeta := ⟨t.shape, t.dtype⟩

/-- A model replica: `params` is `network.parameters()` in registration
order; `buffers` are the non-trainable persistent buffers that appear in
`state_dict()` but not in `parameters()`. -/
structure Model where
  params : List Tensor
  buffers : List Tensor
deriving Repr, DecidableEq

/-- `state_dict()` enumerates trainable parameters and persistent buffers
in registration order. -/
def Model.state_dict (m : Model) : List Tensor := m.params ++ m.buffers

/-- p2p.py line 64:
`seed = args.seed if rank == 0 else args.seed + (args.nb_env * (rank - 1))`.
Python integers are unbounded, so seeds live in `Int`. -/
def per_rank_seed (base_seed nb_env : Int) (rank : Nat) : Int :=
  if rank = 0 then base_seed else base_seed + nb_env * ((rank : Int) - 1)

theorem per_rank_seed_pos (base_seed nb_env : Int) (r : Nat) (hr : r ≠ 0) :
    per_rank_seed base_seed nb_env r = base_seed + nb_env * ((r : Int) - 1) := by
  simp [per_rank_seed, hr]

/-- C2: the per-rank seed is a pure function of base_seed, nb_env and rank:
rank 0 gets `base_seed`, rank r > 0 gets `base_seed + nb_env * (r - 1)`. -/
theorem per_rank_seed_formula (base_seed nb_env : Int) :
    per_rank_seed base_seed nb_env 0 = base_seed ∧
    ∀ r : Nat, r ≠ 0 →
      per_rank_seed base_seed nb_env r = base_seed + nb_env * ((r : Int) - 1) :=
  ⟨rfl, fun r hr => per_rank_seed_pos base_seed nb_env r hr⟩

/-- Witness for C2 at base_seed = 42, nb_env = 4, rank = 3. -/
theorem per_rank_seed_formula_witness :
    per_rank_seed 42 4 0 = 42 ∧ per_rank_seed 42 4 3 = 42 + 4 * ((3 : Int) - 1) :=
  ⟨(per_rank_seed_formula 42 4).1, (per_rank_seed_formula 42 4).2 3 (by decide)⟩

/-- C3 fails as stated: with base_seed = 42 and nb_env = E = 4, rank 1's seed
is 42, not 42 + E, because the code offsets by `nb_env * (rank - 1)`. -/
theorem scenarioA_counterexample : per_rank_seed 42 4 1 ≠ 42 + 4 := by decide

/-- C3 amended: with N = 3 peers and base_seed = 42, the per-rank seeds are
{0: 42, 1: 42, 2: 42 + E} where E is the per-env offset nb_env — rank 1
coincides with rank 0 because the offset is `nb_env * (rank - 1)`. -/
theorem scenarioA_seeds (E : Int) :
    per_rank_seed 42 E 0 = 42 ∧
    per_rank_seed 42 E 1 = 42 ∧
    per_rank_seed 42 E 2 = 42 + E := by
  refine ⟨rfl, ?_, ?_⟩ <;> simp [per_rank_seed]

/-- C4: for any base_seed and any positive nb_env, the seeds of two distinct
non-zero ranks are distinct, and rank 0's seed equals base_seed. -/
theorem per_rank_seed_distinct (base_seed nb_env : Int) (hnb : 0 < nb_env)
    (i j : Nat) (hi : i ≠ 0) (hj : j ≠ 0) (hij : i ≠ j) :
    per_rank_seed base_seed nb_env i ≠ per_rank_seed base_seed nb_env j ∧
    per_rank_seed base_seed nb_env 0 = base_seed := by
  refine ⟨?_, rfl⟩
  rw [per_rank_seed_pos base_seed nb_env i hi, per_rank_seed_pos base_seed nb_env j hj]
  intro h
  have h2 : nb_env * ((i : Int) - 1) = nb_env * ((j : Int) - 1) := by
    exact add_left_cancel h
  have h3 := mul_left_cancel₀ (ne_of_gt hnb) h2
  omega

/-- Witness for C4 at base_seed = 7, nb_env = 2, ranks 1 and 2. -/
theorem per_rank_seed_distinct_witness :
    (0 : Int) < 2 ∧ (1 : Nat) ≠ 0 ∧ (2 : Nat) ≠ 0 ∧ (1 : Nat) ≠ 2 ∧
    (per_rank_seed 7 2 1 ≠ per_rank_seed 7 2 2 ∧ per_rank_seed 7 2 0 = 7) :=
  ⟨by decide, by decide, by decide, by decide,
    per_rank_seed_distinct 7 2 (by decide) 1 2 (by decide) (by decide) (by decide)⟩

/-! ## Initial parameter synchronization (p2p.py lines 73-84) -/

/-- The non-root side of the p2p parameter sync (p2p.py lines 77-83): the
peer copies its parameters to numpy buffers, each `comm.Bcast` overwrites a
buffer in place with rank 0's corresponding parameter payload (position
pairing), and `zip(variables, network.parameters())` copies each received
payload back into the matching local parameter. In-place mutation: the
local list keeps its length, order and metadata; parameters beyond the
truncating `zip` are untouched. -/
def p2pSyncNonRoot (rootParams localParams : List Tensor) : List Tensor :=
  List.zipWith (fun l r => { l with data := r.data }) localParams rootParams
    ++ localParams.drop rootParams.length

/-- One initial sync event over the whole group: rank 0 broadcasts each of
its parameters and mutates nothing locally (p2p.py lines 73-76); every
other rank receives them (lines 77-84). Peer i of the list has rank i. -/
def initialSync (peers : List (List Tensor)) : List (List Tensor) :=
  match peers with
  | [] => []
  | root :: rest => root :: rest.map (p2pSyncNonRoot root)

theorem p2pSyncNonRoot_cons (rh lh : Tensor) (rt lt : List Tensor) :
    p2pSyncNonRoot (rh :: rt) (lh :: lt) =
      { lh with data := rh.data } :: p2pSyncNonRoot rt lt := by
  simp [p2pSyncNonRoot]

theorem p2pSyncNonRoot_getD_data (rootParams localParams : List Tensor)
    (h : localParams.length = rootParams.length) (i : Nat) :
    ((p2pSyncNonRoot rootParams localParams).getD i default).data
      = (rootParams.getD i default).data := by
  induction rootParams generalizing localParams i with
  | nil =>
    cases localParams with
    | nil => simp [p2pSyncNonRoot]
    | cons lh lt => simp at h
  | cons rh rt ih =>
    cases localParams with
    | nil => simp at h
    | cons lh lt =>
      rw [p2pSyncNonRoot_cons]
      cases i with
      | zero => simp
      | succ n =>
        simp only [List.getD_cons_succ]
        exact ih lt (by simpa using h) n

/-- C1: after the initial sync event, every non-zero-rank peer's
ParameterSet is bit-identical to rank 0's: given equal buffer counts
(identical model topology is a construction invariant), the peer's buffer
at every position holds exactly rank 0's contents at that position. -/
theorem initial_sync_convergence (root p : List Tensor) (rest : List (List Tensor))
    (hp : p ∈ rest) (hlen : p.length = root.length) (i : Nat) :
    initialSync (root :: rest) = root :: rest.map (p2pSyncNonRoot root) ∧
    p2pSyncNonRoot root p ∈ (initialSync (root :: rest)).drop 1 ∧
    ((p2pSyncNonRoot root p).getD i default).data = (root.getD i default).data := by
  refine ⟨rfl, ?_, p2pSyncNonRoot_getD_data root p hlen i⟩
  simpa [initialSync] using List.mem_map_of_mem (p2pSyncNonRoot root) hp

def tensorA : Tensor := ⟨[2], 0, [10, 20]⟩
def tensorB : Tensor := ⟨[2], 0, [7, 8]⟩

/-- Witness for C1: a two-peer group where the non-root peer starts from
different contents and ends bit-identical to rank 0 at position 0. -/
theorem initial_sync_convergence_witness :
    tensorB ∈ ([[tensorB]] : List (List Tensor)).head! ∧
    [tensorB].length = [tensorA].length ∧
    (initialSync [[tensorA], [tensorB]]
        = [tensorA] :: [[tensorB]].map (p2pSyncNonRoot [tensorA]) ∧
      p2pSyncNonRoot [tensorA] [tensorB] ∈ (initialSync [[tensorA], [tensorB]]).drop 1 ∧
      ((p2pSyncNonRoot [tensorA] [tensorB]).getD 0 default).data
        = ([tensorA].getD 0 default).data) :=
  ⟨by simp, by simp,
    initial_sync_convergence [tensorA] [tensorB] [[tensorB]] (by simp) (by simp) 0⟩

/-! ## Frame effect of the sync (C8) and broadcast order (C6) -/

theorem p2pSyncNonRoot_length (rootParams localParams : List Tensor) :
    (p2pSyncNonRoot rootParams localParams).length = localParams.length := by
  simp [p2pSyncNonRoot]
  omega

theorem p2pSyncNonRoot_map_meta (rootParams localParams : List Tensor) :
    (p2pSyncNonRoot rootParams localParams).map Tensor.meta
      = localParams.map Tensor.meta := by
  induction localParams generalizing rootParams with
  | nil => simp [p2pSyncNonRoot]
  | cons lh lt ih =>
    cases rootParams with
    | nil => simp [p2pSyncNonRoot]
    | cons rh rt =>
      rw [p2pSyncNonRoot_cons]
      simp only [List.map_cons, ih rt]
      rfl

/-- C8: a parameter sync only overwrites contents in place — for every
model it preserves the number of buffers and, position for position, each
buffer's shape and dtype, so the ParameterSet is never reshaped or
reordered. -/
theorem sync_frame_effect (rootParams localParams : List Tensor) :
    (p2pSyncNonRoot rootParams localParams).length = localParams.length ∧
    (p2pSyncNonRoot rootParams localParams).map Tensor.meta
      = localParams.map Tensor.meta :=
  ⟨p2pSyncNonRoot_length rootParams localParams,
    p2pSyncNonRoot_map_meta rootParams localParams⟩

/-- The sequence of buffer identities a peer broadcasts in one call to the
p2p parameter sync: one broadcast per parameter, in registration order
(the iteration order of `network.parameters()`). -/
def broadcastSequence (params : List Tensor) : List BufferMeta :=
  params.map Tensor.meta

/-- The sequence of buffer identities `BaseNetwork.sync` broadcasts: one
per `state_dict()` entry, in `state_dict` iteration order. -/
def syncBroadcastSequence (m : Model) : List BufferMeta :=
  (Model.state_dict m).map Tensor.meta

/-- The model topology agreed by construction: parameter and persistent
buffer shape/dtype metadata, in registration order. -/
def Model.topology (m : Model) : List BufferMeta × List BufferMeta :=
  (m.params.map Tensor.meta, m.buffers.map Tensor.meta)

/-- C6: the buffer identities broadcast in one sync call are a fixed,
deterministic, position-for-position function of the model topology, with
exactly one broadcast per buffer: two peers that constructed the same
topology issue identical broadcast sequences, both in the p2p
parameter-only sync and in `BaseNetwork.sync`. -/
theorem sync_order_preservation (m1 m2 : Model)
    (h : Model.topology m1 = Model.topology m2) :
    broadcastSequence m1.params = broadcastSequence m2.params ∧
    syncBroadcastSequence m1 = syncBroadcastSequence m2 ∧
    (broadcastSequence m1.params).length = m1.params.length ∧
    (syncBroadcastSequence m1).length = (Model.state_dict m1).length := by
  have h1 : m1.params.map Tensor.meta = m2.params.map Tensor.meta :=
    congrArg Prod.fst h
  have h2 : m1.buffers.map Tensor.meta = m2.buffers.map Tensor.meta :=
    congrArg Prod.snd h
  refine ⟨h1, ?_, List.length_map _ _, List.length_map _ _⟩
  simp only [syncBroadcastSequence, Model.state_dict, List.map_append, h1, h2]

def modelA : Model := ⟨[tensorA], [tensorB]⟩
def modelB : Model := ⟨[⟨[2], 0, [1, 2]⟩], [⟨[2], 0, [3, 4]⟩]⟩

/-- Witness for C6: two replicas with equal topology but different
contents issue identical broadcast sequences. -/
theorem sync_order_preservation_witness :
    Model.topology modelA = Model.topology modelB ∧
    (broadcastSequence modelA.params = broadcastSequence modelB.params ∧
      syncBroadcastSequence modelA = syncBroadcastSequence modelB ∧
      (broadcastSequence modelA.params).length = modelA.params.length ∧
      (syncBroadcastSequence modelA).length = (Model.state_dict modelA).length) :=
  ⟨by decide, sync_order_preservation modelA modelB (by decide)⟩

/-! ## BaseNetwork.sync (base.py lines 48-58) -/

/-- A pending collective-operation handle, as returned by
`dist.broadcast(..., async_op=True)`: `bufIdx` is the position of the
`state_dict` entry it broadcasts, `waited` records whether `wait()` has
been called on it. -/
structure Work where
  bufIdx : Nat
  waited : Bool
deriving Repr, DecidableEq

def Work.wait (w : Work) : Work := { w with waited := true }

/-- base.py lines 48-58: issue one asynchronous broadcast per
`state_dict()` entry (in `state_dict` iteration order), collecting the
handles; when `async_op` is false (the default), wait on every handle
before returning. -/
def BaseNetwork.sync (m : Model) (async_op : Bool) : List Work :=
  let handles :=
    (List.range (Model.state_dict m).length).map (fun i => Work.mk i false)
  if async_op then handles else handles.map Work.wait

/-- C7: with `async_op` true, `BaseNetwork.sync` returns one pending
(unwaited) handle per broadcast buffer; with `async_op` false, every
issued broadcast has been waited on before the call returns. -/
theorem sync_async_semantics (m : Model) :
    (BaseNetwork.sync m true).length = (Model.state_dict m).length ∧
    (BaseNetwork.sync m true).all (fun h => !h.waited) = true ∧
    (BaseNetwork.sync m false).length = (Model.state_dict m).length ∧
    (BaseNetwork.sync m false).all (fun h => h.waited) = true := by
  refine ⟨?_, ?_, ?_, ?_⟩ <;>
    simp [BaseNetwork.sync, Work.wait, List.all_eq_true]

/-- C10: `BaseNetwork.sync` issues exactly one broadcast per entry of the
model's `state_dict`, in `state_dict` iteration order; since `state_dict`
also holds non-trainable persistent buffers, some models make `sync`
transmit strictly more buffers than the parameters-only sync of the p2p
script. -/
theorem sync_vs_parameters :
    (∀ (m : Model) (b : Bool),
      (BaseNetwork.sync m b).length = (Model.state_dict m).length ∧
      (BaseNetwork.sync m b).map Work.bufIdx
        = List.range (Model.state_dict m).length) ∧
    (∃ m : Model,
      (BaseNetwork.sync m false).length > (broadcastSequence m.params).length) := by
  constructor
  · intro m b
    cases b <;>
      simp [BaseNetwork.sync, Work.wait, List.map_map, Function.comp_def,
        List.map_id']
  · exact ⟨modelA, by decide⟩

/-! ## Run-identity bootstrap (p2p.py lines 41-60) -/

/-- The configuration fields the bootstrap reads; identical on every peer
because they come from external config, not from communication. -/
structure Args where
  tag : String
  mode_name : String
  agent : String
  vision_network : String
  network_body : String
  log_dir : String
  env_id : String
deriving Repr, DecidableEq

/-- Modelled from the spec: `make_log_id_from_timestamp` lives in
`adept/utils/logging.py`, which is not under src/; per the spec it
composes the log id from the run tag, mode name, agent name, network name
and the timestamp. -/
def make_log_id_from_timestamp (tag mode agent network timestamp : String) :
    String :=
  tag ++ "_" ++ mode ++ "_" ++ agent ++ "_" ++ network ++ "_" ++ timestamp

/-- `os.path.join` on the path components used at p2p.py lines 47 and 58. -/
def pathJoin (a b : String) : String := a ++ "/" ++ b

/-- The log directory every rank derives (p2p.py lines 44-47 and 55-58):
`os.path.join(args.log_dir, args.env_id, log_id)`, a pure function of the
shared args and the shared timestamp. -/
def deriveLogIdDir (args : Args) (timestamp : String) : String :=
  pathJoin (pathJoin args.log_dir args.env_id)
    (make_log_id_from_timestamp args.tag args.mode_name args.agent
      (args.vision_network ++ args.network_body) timestamp)

/-- `comm.bcast(x, root=0)`: every rank receives the root's value. -/
def bcast {α : Type} (rootVal : α) (_rank : Nat) : α := rootVal

/-- The collective calls a rank can issue in p2p.py's main;
`bcastLogPath` never occurs — the path is derived, not broadcast. -/
inductive CollectiveOp where
  | bcastTimestamp
  | bcastLogPath
  | barrier
  | bcastBuffer
deriving Repr, DecidableEq

/-- The sequence of collective calls every rank issues during the
bootstrap (p2p.py lines 52-60): one timestamp broadcast, then one
barrier. -/
def bootstrapTrace : List CollectiveOp :=
  [CollectiveOp.bcastTimestamp, CollectiveOp.barrier]

/-- A rank's timestamp after `timestamp = comm.bcast(timestamp, root=0)`
(p2p.py line 52). -/
def timestampAfterBcast (rootTimestamp : String) (rank : Nat) : String :=
  bcast rootTimestamp rank

/-- The log directory a rank holds after the bootstrap, derived locally
from its post-broadcast timestamp. -/
def logIdDirAtRank (args : Args) (rootTimestamp : String) (rank : Nat) :
    String :=
  deriveLogIdDir args (timestampAfterBcast rootTimestamp rank)

/-- C5: after the timestamp broadcast every peer holds the same timestamp
and derives the same log directory, because the derivation is a pure
function of shared data; the bootstrap broadcasts the timestamp exactly
once and never broadcasts the path. -/
theorem run_identity_shared (args : Args) (t : String) (r s : Nat) :
    timestampAfterBcast t r = timestampAfterBcast t s ∧
    logIdDirAtRank args t r = logIdDirAtRank args t s ∧
    bootstrapTrace.count CollectiveOp.bcastTimestamp = 1 ∧
    CollectiveOp.bcastLogPath ∉ bootstrapTrace :=
  ⟨rfl, rfl, by decide, by decide⟩

/-- What a rank's local bootstrap control flow produced. -/
structure BootstrapOutcome where
  fatal : Bool
  log_id_dir : String
  attemptedMkdir : Bool
deriving Repr, DecidableEq

/-- Rank-local control flow of p2p.py lines 42-58: rank 0 derives the log
directory and calls `os.makedirs` (an exception there is fatal for rank
0); every other rank only derives the directory from the broadcast
timestamp, with no creation and no existence check. `mkdirFails` models
`os.makedirs` raising (directory exists, permissions). -/
def bootstrap (args : Args) (rootTimestamp : String) (mkdirFails : Bool)
    (rank : Nat) : BootstrapOutcome :=
  if rank = 0 then
    { fatal := mkdirFails
      log_id_dir := deriveLogIdDir args rootTimestamp
      attemptedMkdir := true }
  else
    { fatal := false
      log_id_dir := deriveLogIdDir args (bcast rootTimestamp rank)
      attemptedMkdir := false }

/-- C9: directory creation is attempted only on rank 0 and its failure is
fatal only there; every non-zero rank derives the same path without
creating or checking it and proceeds regardless of the failure. -/
theorem dir_creation_rank0_only (args : Args) (t : String)
    (mkdirFails : Bool) (r : Nat) (hr : r ≠ 0) :
    (bootstrap args t mkdirFails r).attemptedMkdir = false ∧
    (bootstrap args t mkdirFails r).fatal = false ∧
    (bootstrap args t mkdirFails r).log_id_dir
      = (bootstrap args t mkdirFails 0).log_id_dir ∧
    (bootstrap args t true 0).fatal = true ∧
    (bootstrap args t true 0).attemptedMkdir = true := by
  simp [bootstrap, hr, bcast]

def argsEx : Args :=
  ⟨"a2c", "P2P", "ActorCritic", "FourConv", "LSTM", "/tmp", "PongNoFrameskip-v4"⟩

/-- Witness for C9 at rank 2 with a failing mkdir. -/
theorem dir_creation_rank0_only_witness :
    (2 : Nat) ≠ 0 ∧
    ((bootstrap argsEx "2018-01-01" true 2).attemptedMkdir = false ∧
      (bootstrap argsEx "2018-01-01" true 2).fatal = false ∧
      (bootstrap argsEx "2018-01-01" true 2).log_id_dir
        = (bootstrap argsEx "2018-01-01" true 0).log_id_dir ∧
      (bootstrap argsEx "2018-01-01" true 0).fatal = true ∧
      (bootstrap argsEx "2018-01-01" true 0).attemptedMkdir = true) :=
  ⟨by decide, dir_creation_rank0_only argsEx "2018-01-01" true 2 (by decide)⟩
